import Mathlib

/-!
Shallow embedding of `src/crates/libpostal-rust/src/address.rs` (crate
`libpostal-rust` of the geocode-csv repository) together with proofs of the
specification's testable properties.

Modelling conventions:
* A Rust `String` is modelled by Lean's `String` (a list of unicode scalar
  values).  Rust's `str::len` counts UTF-8 bytes, so it is modelled by
  `Libpostal.rustLen`, which sums the UTF-8 encoded size of each character.
* `str::to_uppercase` is modelled by concatenating, over the string's
  characters, the full Unicode uppercase mapping (`upperTable`, the
  Unicode `Uppercase_Mapping` data including special casings such as
  ß→"SS" and ﬂ→"FL").  Uppercasing has no context-dependent rules, so
  this per-character flat-map is exactly what Rust computes.
* `char::is_whitespace` (used via `str::trim`) is the Unicode `White_Space`
  property, embedded here as the explicit list of its 25 code points.
* Rust's `Result<T, ()>` (used by `UsStateCode::from_str`) is modelled by
  `Option T`, with `Err(())` as `none`.
* The `HashMap<String, String>` input of `Address::from_parsed` is modelled
  as an association list iterated in order; the upstream contract
  guarantees unique keys, and the loop body is order-insensitive for
  distinct keys.
-/

set_option maxRecDepth 16384
set_option maxHeartbeats 2000000

namespace Libpostal

/-- Number of bytes of the UTF-8 encoding of a character; `Rust str::len`
is the sum of these over the string's characters. -/
def utf8Len (c : Char) : Nat :=
  if c.toNat ≤ 0x7F then 1
  else if c.toNat ≤ 0x7FF then 2
  else if c.toNat ≤ 0xFFFF then 3
  else 4

/-- Model of Rust `String::len` (UTF-8 byte count). -/
def rustLen (s : String) : Nat :=
  (s.data.map utf8Len).sum

/-- Model of Rust `char::is_ascii_alphabetic`. -/
def isAsciiAlphabetic (c : Char) : Bool :=
  (65 ≤ c.toNat && c.toNat ≤ 90) || (97 ≤ c.toNat && c.toNat ≤ 122)

/-- Model of Rust `char::is_ascii_uppercase`. -/
def isAsciiUppercase (c : Char) : Bool :=
  65 ≤ c.toNat && c.toNat ≤ 90

/-- Model of Rust `char::is_ascii_digit`. -/
def isAsciiDigit (c : Char) : Bool :=
  48 ≤ c.toNat && c.toNat ≤ 57

/-- The Unicode uppercase mapping (Unicode 14.0.0 `Uppercase_Mapping`,
simple and special casings combined): every code point whose full
uppercase differs from itself, paired with the code points of that
uppercase.  Rust `char::to_uppercase` returns exactly this mapping and
`str::to_uppercase` concatenates it over the string's characters
(uppercasing has no context-dependent rules). -/
def upperTable : List (Nat × List Nat) := [
  (97, [65]), (98, [66]), (99, [67]), (100, [68]), (101, [69]),
  (102, [70]), (103, [71]), (104, [72]), (105, [73]), (106, [74]),
  (107, [75]), (108, [76]), (109, [77]), (110, [78]), (111, [79]),
  (112, [80]), (113, [81]), (114, [82]), (115, [83]), (116, [84]),
  (117, [85]), (118, [86]), (119, [87]), (120, [88]), (121, [89]),
  (122, [90]), (181, [924]), (223, [83, 83]), (224, [192]), (225, [193]),
  (226, [194]), (227, [195]), (228, [196]), (229, [197]), (230, [198]),
  (231, [199]), (232, [200]), (233, [201]), (234, [202]), (235, [203]),
  (236, [204]), (237, [205]), (238, [206]), (239, [207]), (240, [208]),
  (241, [209]), (242, [210]), (243, [211]), (244, [212]), (245, [213]),
  (246, [214]), (248, [216]), (249, [217]), (250, [218]), (251, [219]),
  (252, [220]), (253, [221]), (254, [222]), (255, [376]), (257, [256]),
  (259, [258]), (261, [260]), (263, [262]), (265, [264]), (267, [266]),
  (269, [268]), (271, [270]), (273, [272]), (275, [274]), (277, [276]),
  (279, [278]), (281, [280]), (283, [282]), (285, [284]), (287, [286]),
  (289, [288]), (291, [290]), (293, [292]), (295, [294]), (297, [296]),
  (299, [298]), (301, [300]), (303, [302]), (305, [73]), (307, [306]),
  (309, [308]), (311, [310]), (314, [313]), (316, [315]), (318, [317]),
  (320, [319]), (322, [321]), (324, [323]), (326, [325]), (328, [327]),
  (329, [700, 78]), (331, [330]), (333, [332]), (335, [334]), (337, [336]),
  (339, [338]), (341, [340]), (343, [342]), (345, [344]), (347, [346]),
  (349, [348]), (351, [350]), (353, [352]), (355, [354]), (357, [356]),
  (359, [358]), (361, [360]), (363, [362]), (365, [364]), (367, [366]),
  (369, [368]), (371, [370]), (373, [372]), (375, [374]), (378, [377]),
  (380, [379]), (382, [381]), (383, [83]), (384, [579]), (387, [386]),
  (389, [388]), (392, [391]), (396, [395]), (402, [401]), (405, [502]),
  (409, [408]), (410, [573]), (414, [544]), (417, [416]), (419, [418]),
  (421, [420]), (424, [423]), (429, [428]), (432, [431]), (436, [435]),
  (438, [437]), (441, [440]), (445, [444]), (447, [503]), (453, [452]),
  (454, [452]), (456, [455]), (457, [455]), (459, [458]), (460, [458]),
  (462, [461]), (464, [463]), (466, [465]), (468, [467]), (470, [469]),
  (472, [471]), (474, [473]), (476, [475]), (477, [398]), (479, [478]),
  (481, [480]), (483, [482]), (485, [484]), (487, [486]), (489, [488]),
  (491, [490]), (493, [492]), (495, [494]), (496, [74, 780]), (498, [497]),
  (499, [497]), (501, [500]), (505, [504]), (507, [506]), (509, [508]),
  (511, [510]), (513, [512]), (515, [514]), (517, [516]), (519, [518]),
  (521, [520]), (523, [522]), (525, [524]), (527, [526]), (529, [528]),
  (531, [530]), (533, [532]), (535, [534]), (537, [536]), (539, [538]),
  (541, [540]), (543, [542]), (547, [546]), (549, [548]), (551, [550]),
  (553, [552]), (555, [554]), (557, [556]), (559, [558]), (561, [560]),
  (563, [562]), (572, [571]), (575, [11390]), (576, [11391]), (578, [577]),
  (583, [582]), (585, [584]), (587, [586]), (589, [588]), (591, [590]),
  (592, [11375]), (593, [11373]), (594, [11376]), (595, [385]), (596, [390]),
  (598, [393]), (599, [394]), (601, [399]), (603, [400]), (604, [42923]),
  (608, [403]), (609, [42924]), (611, [404]), (613, [42893]), (614, [42922]),
  (616, [407]), (617, [406]), (618, [42926]), (619, [11362]), (620, [42925]),
  (623, [412]), (625, [11374]), (626, [413]), (629, [415]), (637, [11364]),
  (640, [422]), (642, [42949]), (643, [425]), (647, [42929]), (648, [430]),
  (649, [580]), (650, [433]), (651, [434]), (652, [581]), (658, [439]),
  (669, [42930]), (670, [42928]), (837, [921]), (881, [880]), (883, [882]),
  (887, [886]), (891, [1021]), (892, [1022]), (893, [1023]), (912, [921, 776, 769]),
  (940, [902]), (941, [904]), (942, [905]), (943, [906]), (944, [933, 776, 769]),
  (945, [913]), (946, [914]), (947, [915]), (948, [916]), (949, [917]),
  (950, [918]), (951, [919]), (952, [920]), (953, [921]), (954, [922]),
  (955, [923]), (956, [924]), (957, [925]), (958, [926]), (959, [927]),
  (960, [928]), (961, [929]), (962, [931]), (963, [931]), (964, [932]),
  (965, [933]), (966, [934]), (967, [935]), (968, [936]), (969, [937]),
  (970, [938]), (971, [939]), (972, [908]), (973, [910]), (974, [911]),
  (976, [914]), (977, [920]), (981, [934]), (982, [928]), (983, [975]),
  (985, [984]), (987, [986]), (989, [988]), (991, [990]), (993, [992]),
  (995, [994]), (997, [996]), (999, [998]), (1001, [1000]), (1003, [1002]),
  (1005, [1004]), (1007, [1006]), (1008, [922]), (1009, [929]), (1010, [1017]),
  (1011, [895]), (1013, [917]), (1016, [1015]), (1019, [1018]), (1072, [1040]),
  (1073, [1041]), (1074, [1042]), (1075, [1043]), (1076, [1044]), (1077, [1045]),
  (1078, [1046]), (1079, [1047]), (1080, [1048]), (1081, [1049]), (1082, [1050]),
  (1083, [1051]), (1084, [1052]), (1085, [1053]), (1086, [1054]), (1087, [1055]),
  (1088, [1056]), (1089, [1057]), (1090, [1058]), (1091, [1059]), (1092, [1060]),
  (1093, [1061]), (1094, [1062]), (1095, [1063]), (1096, [1064]), (1097, [1065]),
  (1098, [1066]), (1099, [1067]), (1100, [1068]), (1101, [1069]), (1102, [1070]),
  (1103, [1071]), (1104, [1024]), (1105, [1025]), (1106, [1026]), (1107, [1027]),
  (1108, [1028]), (1109, [1029]), (1110, [1030]), (1111, [1031]), (1112, [1032]),
  (1113, [1033]), (1114, [1034]), (1115, [1035]), (1116, [1036]), (1117, [1037]),
  (1118, [1038]), (1119, [1039]), (1121, [1120]), (1123, [1122]), (1125, [1124]),
  (1127, [1126]), (1129, [1128]), (1131, [1130]), (1133, [1132]), (1135, [1134]),
  (1137, [1136]), (1139, [1138]), (1141, [1140]), (1143, [1142]), (1145, [1144]),
  (1147, [1146]), (1149, [1148]), (1151, [1150]), (1153, [1152]), (1163, [1162]),
  (1165, [1164]), (1167, [1166]), (1169, [1168]), (1171, [1170]), (1173, [1172]),
  (1175, [1174]), (1177, [1176]), (1179, [1178]), (1181, [1180]), (1183, [1182]),
  (1185, [1184]), (1187, [1186]), (1189, [1188]), (1191, [1190]), (1193, [1192]),
  (1195, [1194]), (1197, [1196]), (1199, [1198]), (1201, [1200]), (1203, [1202]),
  (1205, [1204]), (1207, [1206]), (1209, [1208]), (1211, [1210]), (1213, [1212]),
  (1215, [1214]), (1218, [1217]), (1220, [1219]), (1222, [1221]), (1224, [1223]),
  (1226, [1225]), (1228, [1227]), (1230, [1229]), (1231, [1216]), (1233, [1232]),
  (1235, [1234]), (1237, [1236]), (1239, [1238]), (1241, [1240]), (1243, [1242]),
  (1245, [1244]), (1247, [1246]), (1249, [1248]), (1251, [1250]), (1253, [1252]),
  (1255, [1254]), (1257, [1256]), (1259, [1258]), (1261, [1260]), (1263, [1262]),
  (1265, [1264]), (1267, [1266]), (1269, [1268]), (1271, [1270]), (1273, [1272]),
  (1275, [1274]), (1277, [1276]), (1279, [1278]), (1281, [1280]), (1283, [1282]),
  (1285, [1284]), (1287, [1286]), (1289, [1288]), (1291, [1290]), (1293, [1292]),
  (1295, [1294]), (1297, [1296]), (1299, [1298]), (1301, [1300]), (1303, [1302]),
  (1305, [1304]), (1307, [1306]), (1309, [1308]), (1311, [1310]), (1313, [1312]),
  (1315, [1314]), (1317, [1316]), (1319, [1318]), (1321, [1320]), (1323, [1322]),
  (1325, [1324]), (1327, [1326]), (1377, [1329]), (1378, [1330]), (1379, [1331]),
  (1380, [1332]), (1381, [1333]), (1382, [1334]), (1383, [1335]), (1384, [1336]),
  (1385, [1337]), (1386, [1338]), (1387, [1339]), (1388, [1340]), (1389, [1341]),
  (1390, [1342]), (1391, [1343]), (1392, [1344]), (1393, [1345]), (1394, [1346]),
  (1395, [1347]), (1396, [1348]), (1397, [1349]), (1398, [1350]), (1399, [1351]),
  (1400, [1352]), (1401, [1353]), (1402, [1354]), (1403, [1355]), (1404, [1356]),
  (1405, [1357]), (1406, [1358]), (1407, [1359]), (1408, [1360]), (1409, [1361]),
  (1410, [1362]), (1411, [1363]), (1412, [1364]), (1413, [1365]), (1414, [1366]),
  (1415, [1333, 1362]), (4304, [7312]), (4305, [7313]), (4306, [7314]), (4307, [7315]),
  (4308, [7316]), (4309, [7317]), (4310, [7318]), (4311, [7319]), (4312, [7320]),
  (4313, [7321]), (4314, [7322]), (4315, [7323]), (4316, [7324]), (4317, [7325]),
  (4318, [7326]), (4319, [7327]), (4320, [7328]), (4321, [7329]), (4322, [7330]),
  (4323, [7331]), (4324, [7332]), (4325, [7333]), (4326, [7334]), (4327, [7335]),
  (4328, [7336]), (4329, [7337]), (4330, [7338]), (4331, [7339]), (4332, [7340]),
  (4333, [7341]), (4334, [7342]), (4335, [7343]), (4336, [7344]), (4337, [7345]),
  (4338, [7346]), (4339, [7347]), (4340, [7348]), (4341, [7349]), (4342, [7350]),
  (4343, [7351]), (4344, [7352]), (4345, [7353]), (4346, [7354]), (4349, [7357]),
  (4350, [7358]), (4351, [7359]), (5112, [5104]), (5113, [5105]), (5114, [5106]),
  (5115, [5107]), (5116, [5108]), (5117, [5109]), (7296, [1042]), (7297, [1044]),
  (7298, [1054]), (7299, [1057]), (7300, [1058]), (7301, [1058]), (7302, [1066]),
  (7303, [1122]), (7304, [42570]), (7545, [42877]), (7549, [11363]), (7566, [42950]),
  (7681, [7680]), (7683, [7682]), (7685, [7684]), (7687, [7686]), (7689, [7688]),
  (7691, [7690]), (7693, [7692]), (7695, [7694]), (7697, [7696]), (7699, [7698]),
  (7701, [7700]), (7703, [7702]), (7705, [7704]), (7707, [7706]), (7709, [7708]),
  (7711, [7710]), (7713, [7712]), (7715, [7714]), (7717, [7716]), (7719, [7718]),
  (7721, [7720]), (7723, [7722]), (7725, [7724]), (7727, [7726]), (7729, [7728]),
  (7731, [7730]), (7733, [7732]), (7735, [7734]), (7737, [7736]), (7739, [7738]),
  (7741, [7740]), (7743, [7742]), (7745, [7744]), (7747, [7746]), (7749, [7748]),
  (7751, [7750]), (7753, [7752]), (7755, [7754]), (7757, [7756]), (7759, [7758]),
  (7761, [7760]), (7763, [7762]), (7765, [7764]), (7767, [7766]), (7769, [7768]),
  (7771, [7770]), (7773, [7772]), (7775, [7774]), (7777, [7776]), (7779, [7778]),
  (7781, [7780]), (7783, [7782]), (7785, [7784]), (7787, [7786]), (7789, [7788]),
  (7791, [7790]), (7793, [7792]), (7795, [7794]), (7797, [7796]), (7799, [7798]),
  (7801, [7800]), (7803, [7802]), (7805, [7804]), (7807, [7806]), (7809, [7808]),
  (7811, [7810]), (7813, [7812]), (7815, [7814]), (7817, [7816]), (7819, [7818]),
  (7821, [7820]), (7823, [7822]), (7825, [7824]), (7827, [7826]), (7829, [7828]),
  (7830, [72, 817]), (7831, [84, 776]), (7832, [87, 778]), (7833, [89, 778]), (7834, [65, 702]),
  (7835, [7776]), (7841, [7840]), (7843, [7842]), (7845, [7844]), (7847, [7846]),
  (7849, [7848]), (7851, [7850]), (7853, [7852]), (7855, [7854]), (7857, [7856]),
  (7859, [7858]), (7861, [7860]), (7863, [7862]), (7865, [7864]), (7867, [7866]),
  (7869, [7868]), (7871, [7870]), (7873, [7872]), (7875, [7874]), (7877, [7876]),
  (7879, [7878]), (7881, [7880]), (7883, [7882]), (7885, [7884]), (7887, [7886]),
  (7889, [7888]), (7891, [7890]), (7893, [7892]), (7895, [7894]), (7897, [7896]),
  (7899, [7898]), (7901, [7900]), (7903, [7902]), (7905, [7904]), (7907, [7906]),
  (7909, [7908]), (7911, [7910]), (7913, [7912]), (7915, [7914]), (7917, [7916]),
  (7919, [7918]), (7921, [7920]), (7923, [7922]), (7925, [7924]), (7927, [7926]),
  (7929, [7928]), (7931, [7930]), (7933, [7932]), (7935, [7934]), (7936, [7944]),
  (7937, [7945]), (7938, [7946]), (7939, [7947]), (7940, [7948]), (7941, [7949]),
  (7942, [7950]), (7943, [7951]), (7952, [7960]), (7953, [7961]), (7954, [7962]),
  (7955, [7963]), (7956, [7964]), (7957, [7965]), (7968, [7976]), (7969, [7977]),
  (7970, [7978]), (7971, [7979]), (7972, [7980]), (7973, [7981]), (7974, [7982]),
  (7975, [7983]), (7984, [7992]), (7985, [7993]), (7986, [7994]), (7987, [7995]),
  (7988, [7996]), (7989, [7997]), (7990, [7998]), (7991, [7999]), (8000, [8008]),
  (8001, [8009]), (8002, [8010]), (8003, [8011]), (8004, [8012]), (8005, [8013]),
  (8016, [933, 787]), (8017, [8025]), (8018, [933, 787, 768]), (8019, [8027]), (8020, [933, 787, 769]),
  (8021, [8029]), (8022, [933, 787, 834]), (8023, [8031]), (8032, [8040]), (8033, [8041]),
  (8034, [8042]), (8035, [8043]), (8036, [8044]), (8037, [8045]), (8038, [8046]),
  (8039, [8047]), (8048, [8122]), (8049, [8123]), (8050, [8136]), (8051, [8137]),
  (8052, [8138]), (8053, [8139]), (8054, [8154]), (8055, [8155]), (8056, [8184]),
  (8057, [8185]), (8058, [8170]), (8059, [8171]), (8060, [8186]), (8061, [8187]),
  (8064, [7944, 921]), (8065, [7945, 921]), (8066, [7946, 921]), (8067, [7947, 921]), (8068, [7948, 921]),
  (8069, [7949, 921]), (8070, [7950, 921]), (8071, [7951, 921]), (8072, [7944, 921]), (8073, [7945, 921]),
  (8074, [7946, 921]), (8075, [7947, 921]), (8076, [7948, 921]), (8077, [7949, 921]), (8078, [7950, 921]),
  (8079, [7951, 921]), (8080, [7976, 921]), (8081, [7977, 921]), (8082, [7978, 921]), (8083, [7979, 921]),
  (8084, [7980, 921]), (8085, [7981, 921]), (8086, [7982, 921]), (8087, [7983, 921]), (8088, [7976, 921]),
  (8089, [7977, 921]), (8090, [7978, 921]), (8091, [7979, 921]), (8092, [7980, 921]), (8093, [7981, 921]),
  (8094, [7982, 921]), (8095, [7983, 921]), (8096, [8040, 921]), (8097, [8041, 921]), (8098, [8042, 921]),
  (8099, [8043, 921]), (8100, [8044, 921]), (8101, [8045, 921]), (8102, [8046, 921]), (8103, [8047, 921]),
  (8104, [8040, 921]), (8105, [8041, 921]), (8106, [8042, 921]), (8107, [8043, 921]), (8108, [8044, 921]),
  (8109, [8045, 921]), (8110, [8046, 921]), (8111, [8047, 921]), (8112, [8120]), (8113, [8121]),
  (8114, [8122, 921]), (8115, [913, 921]), (8116, [902, 921]), (8118, [913, 834]), (8119, [913, 834, 921]),
  (8124, [913, 921]), (8126, [921]), (8130, [8138, 921]), (8131, [919, 921]), (8132, [905, 921]),
  (8134, [919, 834]), (8135, [919, 834, 921]), (8140, [919, 921]), (8144, [8152]), (8145, [8153]),
  (8146, [921, 776, 768]), (8147, [921, 776, 769]), (8150, [921, 834]), (8151, [921, 776, 834]), (8160, [8168]),
  (8161, [8169]), (8162, [933, 776, 768]), (8163, [933, 776, 769]), (8164, [929, 787]), (8165, [8172]),
  (8166, [933, 834]), (8167, [933, 776, 834]), (8178, [8186, 921]), (8179, [937, 921]), (8180, [911, 921]),
  (8182, [937, 834]), (8183, [937, 834, 921]), (8188, [937, 921]), (8526, [8498]), (8560, [8544]),
  (8561, [8545]), (8562, [8546]), (8563, [8547]), (8564, [8548]), (8565, [8549]),
  (8566, [8550]), (8567, [8551]), (8568, [8552]), (8569, [8553]), (8570, [8554]),
  (8571, [8555]), (8572, [8556]), (8573, [8557]), (8574, [8558]), (8575, [8559]),
  (8580, [8579]), (9424, [9398]), (9425, [9399]), (9426, [9400]), (9427, [9401]),
  (9428, [9402]), (9429, [9403]), (9430, [9404]), (9431, [9405]), (9432, [9406]),
  (9433, [9407]), (9434, [9408]), (9435, [9409]), (9436, [9410]), (9437, [9411]),
  (9438, [9412]), (9439, [9413]), (9440, [9414]), (9441, [9415]), (9442, [9416]),
  (9443, [9417]), (9444, [9418]), (9445, [9419]), (9446, [9420]), (9447, [9421]),
  (9448, [9422]), (9449, [9423]), (11312, [11264]), (11313, [11265]), (11314, [11266]),
  (11315, [11267]), (11316, [11268]), (11317, [11269]), (11318, [11270]), (11319, [11271]),
  (11320, [11272]), (11321, [11273]), (11322, [11274]), (11323, [11275]), (11324, [11276]),
  (11325, [11277]), (11326, [11278]), (11327, [11279]), (11328, [11280]), (11329, [11281]),
  (11330, [11282]), (11331, [11283]), (11332, [11284]), (11333, [11285]), (11334, [11286]),
  (11335, [11287]), (11336, [11288]), (11337, [11289]), (11338, [11290]), (11339, [11291]),
  (11340, [11292]), (11341, [11293]), (11342, [11294]), (11343, [11295]), (11344, [11296]),
  (11345, [11297]), (11346, [11298]), (11347, [11299]), (11348, [11300]), (11349, [11301]),
  (11350, [11302]), (11351, [11303]), (11352, [11304]), (11353, [11305]), (11354, [11306]),
  (11355, [11307]), (11356, [11308]), (11357, [11309]), (11358, [11310]), (11359, [11311]),
  (11361, [11360]), (11365, [570]), (11366, [574]), (11368, [11367]), (11370, [11369]),
  (11372, [11371]), (11379, [11378]), (11382, [11381]), (11393, [11392]), (11395, [11394]),
  (11397, [11396]), (11399, [11398]), (11401, [11400]), (11403, [11402]), (11405, [11404]),
  (11407, [11406]), (11409, [11408]), (11411, [11410]), (11413, [11412]), (11415, [11414]),
  (11417, [11416]), (11419, [11418]), (11421, [11420]), (11423, [11422]), (11425, [11424]),
  (11427, [11426]), (11429, [11428]), (11431, [11430]), (11433, [11432]), (11435, [11434]),
  (11437, [11436]), (11439, [11438]), (11441, [11440]), (11443, [11442]), (11445, [11444]),
  (11447, [11446]), (11449, [11448]), (11451, [11450]), (11453, [11452]), (11455, [11454]),
  (11457, [11456]), (11459, [11458]), (11461, [11460]), (11463, [11462]), (11465, [11464]),
  (11467, [11466]), (11469, [11468]), (11471, [11470]), (11473, [11472]), (11475, [11474]),
  (11477, [11476]), (11479, [11478]), (11481, [11480]), (11483, [11482]), (11485, [11484]),
  (11487, [11486]), (11489, [11488]), (11491, [11490]), (11500, [11499]), (11502, [11501]),
  (11507, [11506]), (11520, [4256]), (11521, [4257]), (11522, [4258]), (11523, [4259]),
  (11524, [4260]), (11525, [4261]), (11526, [4262]), (11527, [4263]), (11528, [4264]),
  (11529, [4265]), (11530, [4266]), (11531, [4267]), (11532, [4268]), (11533, [4269]),
  (11534, [4270]), (11535, [4271]), (11536, [4272]), (11537, [4273]), (11538, [4274]),
  (11539, [4275]), (11540, [4276]), (11541, [4277]), (11542, [4278]), (11543, [4279]),
  (11544, [4280]), (11545, [4281]), (11546, [4282]), (11547, [4283]), (11548, [4284]),
  (11549, [4285]), (11550, [4286]), (11551, [4287]), (11552, [4288]), (11553, [4289]),
  (11554, [4290]), (11555, [4291]), (11556, [4292]), (11557, [4293]), (11559, [4295]),
  (11565, [4301]), (42561, [42560]), (42563, [42562]), (42565, [42564]), (42567, [42566]),
  (42569, [42568]), (42571, [42570]), (42573, [42572]), (42575, [42574]), (42577, [42576]),
  (42579, [42578]), (42581, [42580]), (42583, [42582]), (42585, [42584]), (42587, [42586]),
  (42589, [42588]), (42591, [42590]), (42593, [42592]), (42595, [42594]), (42597, [42596]),
  (42599, [42598]), (42601, [42600]), (42603, [42602]), (42605, [42604]), (42625, [42624]),
  (42627, [42626]), (42629, [42628]), (42631, [42630]), (42633, [42632]), (42635, [42634]),
  (42637, [42636]), (42639, [42638]), (42641, [42640]), (42643, [42642]), (42645, [42644]),
  (42647, [42646]), (42649, [42648]), (42651, [42650]), (42787, [42786]), (42789, [42788]),
  (42791, [42790]), (42793, [42792]), (42795, [42794]), (42797, [42796]), (42799, [42798]),
  (42803, [42802]), (42805, [42804]), (42807, [42806]), (42809, [42808]), (42811, [42810]),
  (42813, [42812]), (42815, [42814]), (42817, [42816]), (42819, [42818]), (42821, [42820]),
  (42823, [42822]), (42825, [42824]), (42827, [42826]), (42829, [42828]), (42831, [42830]),
  (42833, [42832]), (42835, [42834]), (42837, [42836]), (42839, [42838]), (42841, [42840]),
  (42843, [42842]), (42845, [42844]), (42847, [42846]), (42849, [42848]), (42851, [42850]),
  (42853, [42852]), (42855, [42854]), (42857, [42856]), (42859, [42858]), (42861, [42860]),
  (42863, [42862]), (42874, [42873]), (42876, [42875]), (42879, [42878]), (42881, [42880]),
  (42883, [42882]), (42885, [42884]), (42887, [42886]), (42892, [42891]), (42897, [42896]),
  (42899, [42898]), (42900, [42948]), (42903, [42902]), (42905, [42904]), (42907, [42906]),
  (42909, [42908]), (42911, [42910]), (42913, [42912]), (42915, [42914]), (42917, [42916]),
  (42919, [42918]), (42921, [42920]), (42933, [42932]), (42935, [42934]), (42937, [42936]),
  (42939, [42938]), (42941, [42940]), (42943, [42942]), (42945, [42944]), (42947, [42946]),
  (42952, [42951]), (42954, [42953]), (42961, [42960]), (42967, [42966]), (42969, [42968]),
  (42998, [42997]), (43859, [42931]), (43888, [5024]), (43889, [5025]), (43890, [5026]),
  (43891, [5027]), (43892, [5028]), (43893, [5029]), (43894, [5030]), (43895, [5031]),
  (43896, [5032]), (43897, [5033]), (43898, [5034]), (43899, [5035]), (43900, [5036]),
  (43901, [5037]), (43902, [5038]), (43903, [5039]), (43904, [5040]), (43905, [5041]),
  (43906, [5042]), (43907, [5043]), (43908, [5044]), (43909, [5045]), (43910, [5046]),
  (43911, [5047]), (43912, [5048]), (43913, [5049]), (43914, [5050]), (43915, [5051]),
  (43916, [5052]), (43917, [5053]), (43918, [5054]), (43919, [5055]), (43920, [5056]),
  (43921, [5057]), (43922, [5058]), (43923, [5059]), (43924, [5060]), (43925, [5061]),
  (43926, [5062]), (43927, [5063]), (43928, [5064]), (43929, [5065]), (43930, [5066]),
  (43931, [5067]), (43932, [5068]), (43933, [5069]), (43934, [5070]), (43935, [5071]),
  (43936, [5072]), (43937, [5073]), (43938, [5074]), (43939, [5075]), (43940, [5076]),
  (43941, [5077]), (43942, [5078]), (43943, [5079]), (43944, [5080]), (43945, [5081]),
  (43946, [5082]), (43947, [5083]), (43948, [5084]), (43949, [5085]), (43950, [5086]),
  (43951, [5087]), (43952, [5088]), (43953, [5089]), (43954, [5090]), (43955, [5091]),
  (43956, [5092]), (43957, [5093]), (43958, [5094]), (43959, [5095]), (43960, [5096]),
  (43961, [5097]), (43962, [5098]), (43963, [5099]), (43964, [5100]), (43965, [5101]),
  (43966, [5102]), (43967, [5103]), (64256, [70, 70]), (64257, [70, 73]), (64258, [70, 76]),
  (64259, [70, 70, 73]), (64260, [70, 70, 76]), (64261, [83, 84]), (64262, [83, 84]), (64275, [1348, 1350]),
  (64276, [1348, 1333]), (64277, [1348, 1339]), (64278, [1358, 1350]), (64279, [1348, 1341]), (65345, [65313]),
  (65346, [65314]), (65347, [65315]), (65348, [65316]), (65349, [65317]), (65350, [65318]),
  (65351, [65319]), (65352, [65320]), (65353, [65321]), (65354, [65322]), (65355, [65323]),
  (65356, [65324]), (65357, [65325]), (65358, [65326]), (65359, [65327]), (65360, [65328]),
  (65361, [65329]), (65362, [65330]), (65363, [65331]), (65364, [65332]), (65365, [65333]),
  (65366, [65334]), (65367, [65335]), (65368, [65336]), (65369, [65337]), (65370, [65338]),
  (66600, [66560]), (66601, [66561]), (66602, [66562]), (66603, [66563]), (66604, [66564]),
  (66605, [66565]), (66606, [66566]), (66607, [66567]), (66608, [66568]), (66609, [66569]),
  (66610, [66570]), (66611, [66571]), (66612, [66572]), (66613, [66573]), (66614, [66574]),
  (66615, [66575]), (66616, [66576]), (66617, [66577]), (66618, [66578]), (66619, [66579]),
  (66620, [66580]), (66621, [66581]), (66622, [66582]), (66623, [66583]), (66624, [66584]),
  (66625, [66585]), (66626, [66586]), (66627, [66587]), (66628, [66588]), (66629, [66589]),
  (66630, [66590]), (66631, [66591]), (66632, [66592]), (66633, [66593]), (66634, [66594]),
  (66635, [66595]), (66636, [66596]), (66637, [66597]), (66638, [66598]), (66639, [66599]),
  (66776, [66736]), (66777, [66737]), (66778, [66738]), (66779, [66739]), (66780, [66740]),
  (66781, [66741]), (66782, [66742]), (66783, [66743]), (66784, [66744]), (66785, [66745]),
  (66786, [66746]), (66787, [66747]), (66788, [66748]), (66789, [66749]), (66790, [66750]),
  (66791, [66751]), (66792, [66752]), (66793, [66753]), (66794, [66754]), (66795, [66755]),
  (66796, [66756]), (66797, [66757]), (66798, [66758]), (66799, [66759]), (66800, [66760]),
  (66801, [66761]), (66802, [66762]), (66803, [66763]), (66804, [66764]), (66805, [66765]),
  (66806, [66766]), (66807, [66767]), (66808, [66768]), (66809, [66769]), (66810, [66770]),
  (66811, [66771]), (66967, [66928]), (66968, [66929]), (66969, [66930]), (66970, [66931]),
  (66971, [66932]), (66972, [66933]), (66973, [66934]), (66974, [66935]), (66975, [66936]),
  (66976, [66937]), (66977, [66938]), (66979, [66940]), (66980, [66941]), (66981, [66942]),
  (66982, [66943]), (66983, [66944]), (66984, [66945]), (66985, [66946]), (66986, [66947]),
  (66987, [66948]), (66988, [66949]), (66989, [66950]), (66990, [66951]), (66991, [66952]),
  (66992, [66953]), (66993, [66954]), (66995, [66956]), (66996, [66957]), (66997, [66958]),
  (66998, [66959]), (66999, [66960]), (67000, [66961]), (67001, [66962]), (67003, [66964]),
  (67004, [66965]), (68800, [68736]), (68801, [68737]), (68802, [68738]), (68803, [68739]),
  (68804, [68740]), (68805, [68741]), (68806, [68742]), (68807, [68743]), (68808, [68744]),
  (68809, [68745]), (68810, [68746]), (68811, [68747]), (68812, [68748]), (68813, [68749]),
  (68814, [68750]), (68815, [68751]), (68816, [68752]), (68817, [68753]), (68818, [68754]),
  (68819, [68755]), (68820, [68756]), (68821, [68757]), (68822, [68758]), (68823, [68759]),
  (68824, [68760]), (68825, [68761]), (68826, [68762]), (68827, [68763]), (68828, [68764]),
  (68829, [68765]), (68830, [68766]), (68831, [68767]), (68832, [68768]), (68833, [68769]),
  (68834, [68770]), (68835, [68771]), (68836, [68772]), (68837, [68773]), (68838, [68774]),
  (68839, [68775]), (68840, [68776]), (68841, [68777]), (68842, [68778]), (68843, [68779]),
  (68844, [68780]), (68845, [68781]), (68846, [68782]), (68847, [68783]), (68848, [68784]),
  (68849, [68785]), (68850, [68786]), (71872, [71840]), (71873, [71841]), (71874, [71842]),
  (71875, [71843]), (71876, [71844]), (71877, [71845]), (71878, [71846]), (71879, [71847]),
  (71880, [71848]), (71881, [71849]), (71882, [71850]), (71883, [71851]), (71884, [71852]),
  (71885, [71853]), (71886, [71854]), (71887, [71855]), (71888, [71856]), (71889, [71857]),
  (71890, [71858]), (71891, [71859]), (71892, [71860]), (71893, [71861]), (71894, [71862]),
  (71895, [71863]), (71896, [71864]), (71897, [71865]), (71898, [71866]), (71899, [71867]),
  (71900, [71868]), (71901, [71869]), (71902, [71870]), (71903, [71871]), (93792, [93760]),
  (93793, [93761]), (93794, [93762]), (93795, [93763]), (93796, [93764]), (93797, [93765]),
  (93798, [93766]), (93799, [93767]), (93800, [93768]), (93801, [93769]), (93802, [93770]),
  (93803, [93771]), (93804, [93772]), (93805, [93773]), (93806, [93774]), (93807, [93775]),
  (93808, [93776]), (93809, [93777]), (93810, [93778]), (93811, [93779]), (93812, [93780]),
  (93813, [93781]), (93814, [93782]), (93815, [93783]), (93816, [93784]), (93817, [93785]),
  (93818, [93786]), (93819, [93787]), (93820, [93788]), (93821, [93789]), (93822, [93790]),
  (93823, [93791]), (125218, [125184]), (125219, [125185]), (125220, [125186]), (125221, [125187]),
  (125222, [125188]), (125223, [125189]), (125224, [125190]), (125225, [125191]), (125226, [125192]),
  (125227, [125193]), (125228, [125194]), (125229, [125195]), (125230, [125196]), (125231, [125197]),
  (125232, [125198]), (125233, [125199]), (125234, [125200]), (125235, [125201]), (125236, [125202]),
  (125237, [125203]), (125238, [125204]), (125239, [125205]), (125240, [125206]), (125241, [125207]),
  (125242, [125208]), (125243, [125209]), (125244, [125210]), (125245, [125211]), (125246, [125212]),
  (125247, [125213]), (125248, [125214]), (125249, [125215]), (125250, [125216]), (125251, [125217])
]

/-- Bit mask over the code points below `0x800`: bit `n` is set exactly
when `n` is a key of `upperTable`.  Certified against the table by
`low_keys_in_mask` and `low_outputs_not_in_mask` below; it witnesses that
low (one- or two-byte UTF-8) uppercase outputs are never keys, i.e. that
uppercasing is idempotent on them. -/
def lowKeyMask : Nat :=
  1813317530596657756547070667457516909664085990683831791883440889246121322715444474055246779663337508986890639354573544532310078626107635899377239898157247910181432972820013481453683665154638533903125069965307639453555675952656949786714496332168506335275846304515466233183919216308588101431452222371017741270054053804683443530065640034970082949283247336750833455789448519327363568901458830653337585370689088613565528238488289280

/-- The uppercase mapping of one code point (identity off the table). -/
def charUpperNat (n : Nat) : List Nat :=
  match upperTable.find? (fun e => e.1 == n) with
  | some e => e.2
  | none => [n]

/-- Model of Rust `char::to_uppercase`: the full uppercase mapping of one
character (one to three characters). -/
def charUpper (c : Char) : List Char :=
  (charUpperNat c.toNat).map Char.ofNat

/-- Model of Rust `str::to_uppercase`: concatenation of the per-character
full uppercase mappings. -/
def rustToUpper (s : String) : String :=
  String.mk (s.data.flatMap charUpper)

/-- The 25 code points with the Unicode `White_Space` property, which is
what Rust's `char::is_whitespace` tests. -/
def wsCodes : List Nat :=
  [0x09, 0x0A, 0x0B, 0x0C, 0x0D, 0x20, 0x85, 0xA0, 0x1680,
   0x2000, 0x2001, 0x2002, 0x2003, 0x2004, 0x2005, 0x2006, 0x2007,
   0x2008, 0x2009, 0x200A, 0x2028, 0x2029, 0x202F, 0x205F, 0x3000]

/-- Model of Rust `char::is_whitespace`. -/
def rustIsWhitespace (c : Char) : Bool :=
  wsCodes.contains c.toNat

/-- Model of Rust `str::trim` on the character list of a string: drop
whitespace from both ends. -/
def trimList (l : List Char) : List Char :=
  ((l.dropWhile rustIsWhitespace).reverse.dropWhile rustIsWhitespace).reverse

/- ### The value types of `address.rs` -/

/-- `struct Postcode(String)` — postal/ZIP code wrapper. -/
structure Postcode where
  val : String
deriving DecidableEq

/-- `Postcode::new`: returns `None` when the trimmed text is empty,
otherwise wraps the original (untrimmed) text. -/
def Postcode.new (code : String) : Option Postcode :=
  if (trimList code.data).isEmpty then none else some ⟨code⟩

/-- `Postcode::as_str`: the stored text. -/
def Postcode.as_str (p : Postcode) : String := p.val

/-- The `Display` impl for `Postcode` (`write!(f, "{}", self.0)`). -/
def Postcode.display (p : Postcode) : String := p.val

/-- `enum UsStateCode` — the 51 two-letter US state codes (with DC). -/
inductive UsStateCode where
  | AL | AK | AZ | AR | CA | CO | CT | DE | FL | GA
  | HI | ID | IL | IN | IA | KS | KY | LA | ME | MD
  | MA | MI | MN | MS | MO | MT | NE | NV | NH | NJ
  | NM | NY | NC | ND | OH | OK | OR | PA | RI | SC
  | SD | TN | TX | UT | VT | VA | WA | WV | WI | WY
  | DC
deriving DecidableEq, Fintype

/-- `UsStateCode::as_str` — canonical two-letter code. -/
def UsStateCode.as_str : UsStateCode → String
  | .AL => "AL" | .AK => "AK" | .AZ => "AZ" | .AR => "AR" | .CA => "CA"
  | .CO => "CO" | .CT => "CT" | .DE => "DE" | .FL => "FL" | .GA => "GA"
  | .HI => "HI" | .ID => "ID" | .IL => "IL" | .IN => "IN" | .IA => "IA"
  | .KS => "KS" | .KY => "KY" | .LA => "LA" | .ME => "ME" | .MD => "MD"
  | .MA => "MA" | .MI => "MI" | .MN => "MN" | .MS => "MS" | .MO => "MO"
  | .MT => "MT" | .NE => "NE" | .NV => "NV" | .NH => "NH" | .NJ => "NJ"
  | .NM => "NM" | .NY => "NY" | .NC => "NC" | .ND => "ND" | .OH => "OH"
  | .OK => "OK" | .OR => "OR" | .PA => "PA" | .RI => "RI" | .SC => "SC"
  | .SD => "SD" | .TN => "TN" | .TX => "TX" | .UT => "UT" | .VT => "VT"
  | .VA => "VA" | .WA => "WA" | .WV => "WV" | .WI => "WI" | .WY => "WY"
  | .DC => "DC"

/-- `impl FromStr for UsStateCode`: match on `s.to_uppercase().as_str()`;
Rust's `Err(())` is modelled as `none`. -/
def UsStateCode.from_str (s : String) : Option UsStateCode :=
  match rustToUpper s with
  | "AL" => some .AL | "AK" => some .AK | "AZ" => some .AZ | "AR" => some .AR
  | "CA" => some .CA | "CO" => some .CO | "CT" => some .CT | "DE" => some .DE
  | "FL" => some .FL | "GA" => some .GA | "HI" => some .HI | "ID" => some .ID
  | "IL" => some .IL | "IN" => some .IN | "IA" => some .IA | "KS" => some .KS
  | "KY" => some .KY | "LA" => some .LA | "ME" => some .ME | "MD" => some .MD
  | "MA" => some .MA | "MI" => some .MI | "MN" => some .MN | "MS" => some .MS
  | "MO" => some .MO | "MT" => some .MT | "NE" => some .NE | "NV" => some .NV
  | "NH" => some .NH | "NJ" => some .NJ | "NM" => some .NM | "NY" => some .NY
  | "NC" => some .NC | "ND" => some .ND | "OH" => some .OH | "OK" => some .OK
  | "OR" => some .OR | "PA" => some .PA | "RI" => some .RI | "SC" => some .SC
  | "SD" => some .SD | "TN" => some .TN | "TX" => some .TX | "UT" => some .UT
  | "VT" => some .VT | "VA" => some .VA | "WA" => some .WA | "WV" => some .WV
  | "WI" => some .WI | "WY" => some .WY | "DC" => some .DC
  | _ => none

/-- `enum State` — state/province representation. -/
inductive State where
  | UsStateCode (code : UsStateCode)
  | CanadianProvince (s : String)
  | Other (s : String)
deriving DecidableEq

/-- `State::as_str`. -/
def State.as_str : State → String
  | .UsStateCode code => code.as_str
  | .CanadianProvince s | .Other s => s

/-- `enum Country` — country representation with ISO codes. -/
inductive Country where
  | Iso2 (s : String)
  | Iso3 (s : String)
  | Name (s : String)
deriving DecidableEq

/-- `Country::as_str`. -/
def Country.as_str : Country → String
  | .Iso2 s | .Iso3 s | .Name s => s

/-- `Country::from_string`: classify by `s.len()` (UTF-8 bytes) and
character class. -/
def Country.from_string (s : String) : Country :=
  match rustLen s with
  | 2 => Country.Iso2 (rustToUpper s)
  | 3 =>
    if s.data.all (fun c => isAsciiUppercase c || isAsciiDigit c) then
      Country.Iso3 (rustToUpper s)
    else
      Country.Name s
  | _ => Country.Name s

/-- The `state` arm of `Address::from_parsed` as a standalone classifier
(first match wins: US state code, then two-ASCII-letter Canadian
province, then free text). -/
def classifyState (value : String) : State :=
  match UsStateCode.from_str value with
  | some us_state => State.UsStateCode us_state
  | none =>
    if rustLen value = 2 ∧ value.data.all isAsciiAlphabetic then
      State.CanadianProvince (rustToUpper value)
    else
      State.Other value

/-- `struct Address` — all optional address components. -/
structure Address where
  house_number : Option String := none
  road : Option String := none
  unit : Option String := none
  house : Option String := none
  level : Option String := none
  staircase : Option String := none
  entrance : Option String := none
  po_box : Option String := none
  postcode : Option Postcode := none
  suburb : Option String := none
  city : Option String := none
  city_district : Option String := none
  island : Option String := none
  state : Option State := none
  state_district : Option String := none
  country : Option Country := none
  country_region : Option String := none
  world_region : Option String := none
  neighbourhood : Option String := none
  category : Option String := none
  near : Option String := none
deriving DecidableEq

/-- `Address::default()` — every field absent. -/
def Address.default : Address := {}

/-- The body of the dispatch loop of `Address::from_parsed`: one raw
entry updates (at most) one field of the accumulator. -/
def Address.applyEntry (addr : Address) (kv : String × String) : Address :=
  match kv.1 with
  | "house_number" => { addr with house_number := some kv.2 }
  | "road" => { addr with road := some kv.2 }
  | "unit" => { addr with unit := some kv.2 }
  | "house" => { addr with house := some kv.2 }
  | "level" => { addr with level := some kv.2 }
  | "staircase" => { addr with staircase := some kv.2 }
  | "entrance" => { addr with entrance := some kv.2 }
  | "po_box" => { addr with po_box := some kv.2 }
  | "postcode" => { addr with postcode := Postcode.new kv.2 }
  | "suburb" => { addr with suburb := some kv.2 }
  | "city" => { addr with city := some kv.2 }
  | "city_district" => { addr with city_district := some kv.2 }
  | "island" => { addr with island := some kv.2 }
  | "state" => { addr with state := some (classifyState kv.2) }
  | "state_district" => { addr with state_district := some kv.2 }
  | "country" => { addr with country := some (Country.from_string kv.2) }
  | "country_region" => { addr with country_region := some kv.2 }
  | "world_region" => { addr with world_region := some kv.2 }
  | "neighbourhood" => { addr with neighbourhood := some kv.2 }
  | "category" => { addr with category := some kv.2 }
  | "near" => { addr with near := some kv.2 }
  | _ => addr

/-- `Address::from_parsed`: fold the dispatch loop over the raw entries,
starting from the all-absent default. -/
def Address.from_parsed (parsed : List (String × String)) : Address :=
  parsed.foldl Address.applyEntry Address.default

/-- `Address::to_single_line`: join the present components of the primary
line with single spaces, the unit with a `#` marker. -/
def Address.to_single_line (a : Address) : String :=
  let parts : List String :=
    a.house_number.toList ++ a.road.toList ++
    (a.unit.map (fun u => "#" ++ u)).toList ++ a.city.toList ++
    (a.state.map State.as_str).toList ++
    (a.postcode.map Postcode.as_str).toList ++
    (a.country.map Country.as_str).toList
  String.intercalate " " parts

/-- The 21 field names recognized by the dispatch loop. -/
def recognizedKeys : List String :=
  ["house_number", "road", "unit", "house", "level", "staircase",
   "entrance", "po_box", "postcode", "suburb", "city", "city_district",
   "island", "state", "state_district", "country", "country_region",
   "world_region", "neighbourhood", "category", "near"]

/-- A raw entry is recognized when its key is in the vocabulary. -/
def recognizedEntry (kv : String × String) : Bool :=
  recognizedKeys.contains kv.1

/-- The State classifier, phrased exactly as the specification's words:
first-match-wins over case-insensitive decoding to a US state code, then
"exactly two characters and both ASCII alphabetic" (character count, not
byte count), then free text. -/
def classifyStateSpec (value : String) : State :=
  match UsStateCode.from_str value with
  | some us_state => State.UsStateCode us_state
  | none =>
    if value.data.length = 2 ∧ value.data.all isAsciiAlphabetic then
      State.CanadianProvince (rustToUpper value)
    else
      State.Other value


/- ### Character-level lemmas -/

theorem toNat_ofNat_valid (n : Nat) (h : n.isValidChar) :
    (Char.ofNat n).toNat = n := by
  rw [Char.ofNat, dif_pos h]
  rfl

/- ### Certified facts about the uppercase table -/

/-- Every table key is at least 97 (ASCII `'a'`), so uppercase letters,
digits and the rest of low ASCII map to themselves. -/
theorem keys_ge : upperTable.all (fun e => 97 ≤ e.1) = true := by decide

/-- Every uppercase output is a valid unicode scalar value. -/
theorem outputs_valid :
    upperTable.all
      (fun e => e.2.all (fun d => d < 55296 || (57343 < d && d < 1114112))) = true := by
  decide

/-- Every table key below `0x800` has its bit set in `lowKeyMask`. -/
theorem low_keys_in_mask :
    upperTable.all
      (fun e => 2048 ≤ e.1 || (lowKeyMask >>> e.1) &&& 1 == 1) = true := by
  decide

/-- No uppercase output below `0x800` has its bit set in `lowKeyMask`. -/
theorem low_outputs_not_in_mask :
    upperTable.all
      (fun e => e.2.all (fun d => 2048 ≤ d || (lowKeyMask >>> d) &&& 1 == 0)) = true := by
  decide

/-- Code points below 97 are not keys of the table. -/
theorem find?_eq_none_of_lt97 (n : Nat) (h : n < 97) :
    upperTable.find? (fun e => e.1 == n) = none := by
  rw [List.find?_eq_none]
  intro e he hbeq
  have h97 : 97 ≤ e.1 := of_decide_eq_true (List.all_eq_true.mp keys_ge e he)
  have he1 : e.1 = n := eq_of_beq hbeq
  omega

/-- An uppercase output below `0x800` is never a key of the table. -/
theorem find?_eq_none_of_low_output (e0 : Nat × List Nat)
    (he0 : e0 ∈ upperTable) (d : Nat) (hd : d ∈ e0.2) (hlow : d < 2048) :
    upperTable.find? (fun e => e.1 == d) = none := by
  have h2 := List.all_eq_true.mp
    (List.all_eq_true.mp low_outputs_not_in_mask e0 he0) d hd
  rw [Bool.or_eq_true] at h2
  have hbit0 : (lowKeyMask >>> d) &&& 1 = 0 := by
    rcases h2 with h2 | h2
    · exact absurd (of_decide_eq_true h2) (by omega)
    · exact eq_of_beq h2
  rw [List.find?_eq_none]
  intro e he hbeq
  have hed : e.1 = d := eq_of_beq hbeq
  have hkey := List.all_eq_true.mp low_keys_in_mask e he
  rw [Bool.or_eq_true] at hkey
  rcases hkey with hk | hk
  · exact absurd (of_decide_eq_true hk) (by omega)
  · have hbit1 : (lowKeyMask >>> e.1) &&& 1 = 1 := eq_of_beq hk
    rw [hed] at hbit1
    omega

/-- `charUpper` fixes every character below 97 (uppercase ASCII letters,
digits, low punctuation). -/
theorem charUpper_eq_of_lt97 (c : Char) (h : c.toNat < 97) :
    charUpper c = [c] := by
  unfold charUpper charUpperNat
  rw [find?_eq_none_of_lt97 c.toNat h]
  simp

/-- A character produced by `charUpper` whose code point is below `0x800`
is itself fixed by `charUpper`: uppercasing is idempotent on one- and
two-byte outputs. -/
theorem charUpper_image_fixed (c d : Char) (hd : d ∈ charUpper c)
    (hlow : d.toNat < 2048) : charUpper d = [d] := by
  cases hf : upperTable.find? (fun e => e.1 == c.toNat) with
  | none =>
    have hcc : charUpper c = [c] := by
      unfold charUpper charUpperNat
      rw [hf]
      simp
    rw [hcc, List.mem_singleton] at hd
    subst hd
    unfold charUpper charUpperNat
    rw [hf]
    simp
  | some e =>
    have hcc : charUpper c = e.2.map Char.ofNat := by
      unfold charUpper charUpperNat
      rw [hf]
    rw [hcc] at hd
    rcases List.mem_map.mp hd with ⟨n, hn, hofn⟩
    have he : e ∈ upperTable := List.mem_of_find?_eq_some hf
    have hv := List.all_eq_true.mp
      (List.all_eq_true.mp outputs_valid e he) n hn
    rw [Bool.or_eq_true] at hv
    have hvalid : n.isValidChar := by
      rcases hv with hv | hv
      · exact Or.inl (of_decide_eq_true hv)
      · rw [Bool.and_eq_true] at hv
        exact Or.inr ⟨of_decide_eq_true hv.1, of_decide_eq_true hv.2⟩
    have htoNat : d.toNat = n := by
      rw [← hofn]
      exact toNat_ofNat_valid n hvalid
    unfold charUpper charUpperNat
    rw [htoNat, find?_eq_none_of_low_output e he n hn (by omega)]
    simp only [List.map_cons, List.map_nil]
    rw [← hofn]

/-- Characters fitting in at most two UTF-8 bytes are below `0x800`. -/
theorem toNat_lt_of_utf8Len_le_two (d : Char) (h : utf8Len d ≤ 2) :
    d.toNat < 2048 := by
  unfold utf8Len at h
  by_cases h1 : d.toNat ≤ 127
  · omega
  · rw [if_neg h1] at h
    by_cases h2 : d.toNat ≤ 2047
    · omega
    · rw [if_neg h2] at h
      by_cases h3 : d.toNat ≤ 65535
      · rw [if_pos h3] at h
        omega
      · rw [if_neg h3] at h
        omega

/-- Each character contributes at most the whole byte length. -/
theorem utf8Len_le_rustLen_of_mem (s : String) (d : Char) (hd : d ∈ s.data) :
    utf8Len d ≤ rustLen s := by
  show utf8Len d ≤ (s.data.map utf8Len).sum
  exact List.single_le_sum (fun x _ => Nat.zero_le x) _
    (List.mem_map_of_mem utf8Len hd)

theorem flatMap_eq_self_of_fixed (l : List Char)
    (h : ∀ d ∈ l, charUpper d = [d]) : l.flatMap charUpper = l := by
  induction l with
  | nil => rfl
  | cons c l ih =>
    rw [List.flatMap_cons, h c (List.mem_cons_self c l),
      ih (fun d hd => h d (List.mem_cons_of_mem c hd))]
    rfl

/-- When the uppercased text still fits in two bytes, every character of
it is a low output, so uppercasing it again changes nothing. -/
theorem rustToUpper_idem_of_len_two (s : String)
    (h : rustLen (rustToUpper s) = 2) :
    rustToUpper (rustToUpper s) = rustToUpper s := by
  have hfix : ∀ d ∈ (rustToUpper s).data, charUpper d = [d] := by
    intro d hd
    have hle : utf8Len d ≤ rustLen (rustToUpper s) :=
      utf8Len_le_rustLen_of_mem (rustToUpper s) d hd
    have hlow : d.toNat < 2048 := toNat_lt_of_utf8Len_le_two d (by omega)
    have hd2 : d ∈ s.data.flatMap charUpper := hd
    rcases List.mem_flatMap.mp hd2 with ⟨c, hc, hdc⟩
    exact charUpper_image_fixed c d hdc hlow
  show String.mk ((rustToUpper s).data.flatMap charUpper) = rustToUpper s
  rw [flatMap_eq_self_of_fixed _ hfix]

theorem utf8Len_of_alpha (c : Char) (h : isAsciiAlphabetic c = true) :
    utf8Len c = 1 := by
  simp only [isAsciiAlphabetic, Bool.or_eq_true, Bool.and_eq_true,
    decide_eq_true_eq] at h
  unfold utf8Len
  rw [if_pos (by omega)]

theorem rustLen_eq_length_of_alpha (l : List Char)
    (h : l.all isAsciiAlphabetic = true) :
    (l.map utf8Len).sum = l.length := by
  induction l with
  | nil => rfl
  | cons c l ih =>
    simp only [List.all_cons, Bool.and_eq_true] at h
    simp only [List.map_cons, List.sum_cons, List.length_cons,
      utf8Len_of_alpha c h.1, ih h.2]
    omega

/- ### `str::trim` emptiness -/

theorem trimList_eq_nil_iff (l : List Char) :
    trimList l = [] ↔ l.all rustIsWhitespace = true := by
  unfold trimList
  rw [List.reverse_eq_nil_iff, List.dropWhile_eq_nil_iff, List.all_eq_true]
  constructor
  · intro h x hx
    by_cases hd : x ∈ l.dropWhile rustIsWhitespace
    · exact h x (List.mem_reverse.mpr hd)
    · have hsplit := List.takeWhile_append_dropWhile rustIsWhitespace l
      rw [← hsplit] at hx
      rcases List.mem_append.mp hx with ht | hd'
      · exact List.mem_takeWhile_imp ht
      · exact absurd hd' hd
  · intro h x hx
    exact h x ((List.dropWhile_sublist _).subset (List.mem_reverse.mp hx))

/- ### Characterization of `UsStateCode::from_str` -/

theorem from_str_eq_some_iff (s : String) (c : UsStateCode) :
    UsStateCode.from_str s = some c ↔ rustToUpper s = c.as_str := by
  unfold UsStateCode.from_str
  generalize rustToUpper s = u
  constructor
  · intro h
    split at h <;>
      first
        | exact Option.noConfusion h
        | (injection h with h2; subst h2; rfl)
  · intro h
    subst h
    cases c <;> rfl

theorem from_str_eq_none_iff (s : String) :
    UsStateCode.from_str s = none ↔
      ∀ c : UsStateCode, rustToUpper s ≠ c.as_str := by
  constructor
  · intro h c hc
    rw [(from_str_eq_some_iff s c).mpr hc] at h
    exact Option.noConfusion h
  · intro h
    cases hf : UsStateCode.from_str s with
    | none => rfl
    | some c => exact absurd ((from_str_eq_some_iff s c).mp hf) (h c)

/-- Every canonical code is already uppercase. -/
theorem rustToUpper_as_str (c : UsStateCode) :
    rustToUpper c.as_str = c.as_str := by
  cases c <;> decide

/-- On all-ASCII-alphabetic text, byte length and character count agree,
so the code's `value.len() == 2` test and the spec's "exactly two
characters" test coincide. -/
theorem code_cond_iff_spec_cond (s : String) :
    (rustLen s = 2 ∧ s.data.all isAsciiAlphabetic = true) ↔
      (s.data.length = 2 ∧ s.data.all isAsciiAlphabetic = true) := by
  constructor
  · rintro ⟨hlen, ha⟩
    refine ⟨?_, ha⟩
    rw [← rustLen_eq_length_of_alpha s.data ha]
    exact hlen
  · rintro ⟨hlen, ha⟩
    refine ⟨?_, ha⟩
    show (s.data.map utf8Len).sum = 2
    rw [rustLen_eq_length_of_alpha s.data ha]
    exact hlen

/- ### Claim theorems -/

/-- Counterexample to C1 as stated: `"ﬂ"` (U+FB02) is not two ASCII
letters, yet the state arm classifies it as `UsStateCode FL` rather than
`Other "ﬂ"`, because Rust's full-Unicode `to_uppercase` maps it to
`"FL"`, which decodes as a US state code. -/
theorem state_unicode_counterexample :
    ¬(("ﬂ" : String).data.length = 2 ∧
        ("ﬂ" : String).data.all isAsciiAlphabetic = true) ∧
    classifyState "ﬂ" = State.UsStateCode UsStateCode.FL := by
  refine ⟨by decide, by decide⟩

/-- Claim C1 as amended: the "state" arm of `Address::from_parsed` is
exactly the first-match-wins cascade the specification describes —
case-insensitive US state decoding first, then the two-ASCII-letter
Canadian-province test (character count and byte count agree on all-ASCII
text), then `Other` with the text unchanged.  Every two-ASCII-letter
input lands in `UsStateCode` or `CanadianProvince`; every other input is
preserved verbatim in `Other` unless it still decodes case-insensitively
to a US state code through a Unicode case mapping (e.g. "ﬂ" → FL), in
which case it is that `UsStateCode`. -/
theorem state_classification_partition (s : String) :
    classifyState s = classifyStateSpec s ∧
    (s.data.length = 2 ∧ s.data.all isAsciiAlphabetic = true →
      (∃ c : UsStateCode, classifyState s = State.UsStateCode c) ∨
        classifyState s = State.CanadianProvince (rustToUpper s)) ∧
    (¬(s.data.length = 2 ∧ s.data.all isAsciiAlphabetic = true) →
      classifyState s = State.Other s ∨
        ∃ c : UsStateCode, classifyState s = State.UsStateCode c) ∧
    (UsStateCode.from_str s = none →
      ¬(s.data.length = 2 ∧ s.data.all isAsciiAlphabetic = true) →
      classifyState s = State.Other s) := by
  refine ⟨?_, ?_, ?_, ?_⟩
  · unfold classifyState classifyStateSpec
    cases hf : UsStateCode.from_str s with
    | some c => rfl
    | none =>
      by_cases ha : s.data.all isAsciiAlphabetic = true
      · have hlen : rustLen s = s.data.length := by
          show (s.data.map utf8Len).sum = _
          exact rustLen_eq_length_of_alpha s.data ha
        rw [hlen]
      · rw [if_neg (fun h => ha h.2), if_neg (fun h => ha h.2)]
  · intro h
    unfold classifyState
    cases hf : UsStateCode.from_str s with
    | some c => exact Or.inl ⟨c, rfl⟩
    | none =>
      refine Or.inr ?_
      rw [if_pos ((code_cond_iff_spec_cond s).mpr h)]
  · intro h
    unfold classifyState
    cases hf : UsStateCode.from_str s with
    | some c => exact Or.inr ⟨c, rfl⟩
    | none =>
      refine Or.inl ?_
      rw [if_neg (fun hc => h ((code_cond_iff_spec_cond s).mp hc))]
  · intro hnone h
    unfold classifyState
    cases hf : UsStateCode.from_str s with
    | some c =>
      rw [hnone] at hf
      exact Option.noConfusion hf
    | none =>
      rw [if_neg (fun hc => h ((code_cond_iff_spec_cond s).mp hc))]

/-- Witness for C1 at concrete inputs: "on" (two letters, not a US code)
and "Ontario" (neither two letters nor a decodable code). -/
theorem state_classification_partition_witness :
    classifyState "on" = classifyStateSpec "on" ∧
    classifyState "Ontario" = State.Other "Ontario" :=
  ⟨(state_classification_partition "on").1,
   (state_classification_partition "Ontario").2.2.2 (by decide) (by decide)⟩

/-- Claim C4: `UsStateCode::from_str` succeeds with symbol `c` exactly on
the case variants of `c`'s canonical code (so encoding then decoding in
any letter case returns the original symbol), and fails on every string
not case-insensitively equal to a table entry. -/
theorem us_state_code_round_trip (s : String) :
    (∀ c : UsStateCode,
      UsStateCode.from_str s = some c ↔ rustToUpper s = c.as_str) ∧
    (UsStateCode.from_str s = none ↔
      ∀ c : UsStateCode, rustToUpper s ≠ c.as_str) ∧
    (∀ c : UsStateCode, UsStateCode.from_str c.as_str = some c) :=
  ⟨fun c => from_str_eq_some_iff s c, from_str_eq_none_iff s,
   fun c => (from_str_eq_some_iff _ c).mpr (rustToUpper_as_str c)⟩

/-- Witness for C4 at concrete inputs: mixed-case "nY" decodes to NY,
"ſc" decodes to SC through the Unicode mapping ſ→S, and "XX" (not in the
table) is rejected. -/
theorem us_state_code_round_trip_witness :
    UsStateCode.from_str "nY" = some UsStateCode.NY ∧
    UsStateCode.from_str "ſc" = some UsStateCode.SC ∧
    UsStateCode.from_str "XX" = none :=
  ⟨((us_state_code_round_trip "nY").1 UsStateCode.NY).mpr (by decide),
   ((us_state_code_round_trip "ſc").1 UsStateCode.SC).mpr (by decide),
   (us_state_code_round_trip "XX").2.1.mpr (by decide)⟩

/-- Counterexample to C2 as stated: `"éé"` has exactly 2 characters, yet
`Country::from_string` returns `Name`, not `Iso2`, because Rust's
`s.len()` counts UTF-8 bytes (here 4), not characters. -/
theorem country_charcount_counterexample :
    String.length "éé" = 2 ∧
    Country.from_string "éé" = Country.Name "éé" := by
  refine ⟨by decide, by decide⟩

/-- Claim C2 as amended: `Country::from_string` is decided purely by
UTF-8 byte length (Rust `String::len`) and character class — a 2-byte
input always yields `Iso2` of the uppercased text; a 3-byte input whose
every character is an ASCII uppercase letter or digit yields `Iso3`
uppercased; a 3-byte input failing that test, and any input of any other
byte length, yields `Name` with the text unchanged. -/
theorem country_classification_partition (s : String) :
    (rustLen s = 2 → Country.from_string s = Country.Iso2 (rustToUpper s)) ∧
    (rustLen s = 3 ∧
        s.data.all (fun c => isAsciiUppercase c || isAsciiDigit c) = true →
      Country.from_string s = Country.Iso3 (rustToUpper s)) ∧
    (rustLen s = 3 ∧
        ¬s.data.all (fun c => isAsciiUppercase c || isAsciiDigit c) = true →
      Country.from_string s = Country.Name s) ∧
    (rustLen s ≠ 2 ∧ rustLen s ≠ 3 → Country.from_string s = Country.Name s) := by
  refine ⟨?_, ?_, ?_, ?_⟩
  · intro h
    simp only [Country.from_string, h]
  · rintro ⟨h3, hall⟩
    simp only [Country.from_string, h3]
    rw [if_pos hall]
  · rintro ⟨h3, hall⟩
    simp only [Country.from_string, h3]
    rw [if_neg hall]
  · rintro ⟨h2, h3⟩
    unfold Country.from_string
    split
    · simp_all
    · simp_all
    · rfl

/-- Witness for the amended C2 at concrete inputs of each branch; the
2-byte input "ß" stores the full-Unicode uppercase "SS", as the program
does. -/
theorem country_classification_partition_witness :
    Country.from_string "us" = Country.Iso2 "US" ∧
    Country.from_string "ß" = Country.Iso2 "SS" ∧
    Country.from_string "USA" = Country.Iso3 "USA" ∧
    Country.from_string "Usa" = Country.Name "Usa" ∧
    Country.from_string "United States" = Country.Name "United States" :=
  ⟨((country_classification_partition "us").1 (by decide)).trans (by decide),
   ((country_classification_partition "ß").1 (by decide)).trans (by decide),
   ((country_classification_partition "USA").2.1 (by decide)).trans (by decide),
   (country_classification_partition "Usa").2.2.1 (by decide),
   (country_classification_partition "United States").2.2.2 (by decide)⟩

/-- The uppercase map fixes a string whose characters are all ASCII
uppercase letters or digits (their code points are below every table
key). -/
theorem rustToUpper_eq_self_of_upper_digit (s : String)
    (h : s.data.all (fun c => isAsciiUppercase c || isAsciiDigit c) = true) :
    rustToUpper s = s := by
  cases s with
  | mk l =>
    show String.mk (l.flatMap charUpper) = String.mk l
    congr 1
    rw [List.all_eq_true] at h
    induction l with
    | nil => rfl
    | cons c l ih =>
      have hc : c.toNat < 97 := by
        have hm := h c (List.mem_cons_self c l)
        simp only [isAsciiUppercase, isAsciiDigit, Bool.or_eq_true,
          Bool.and_eq_true, decide_eq_true_eq] at hm
        omega
      rw [List.flatMap_cons, charUpper_eq_of_lt97 c hc,
        ih (fun x hx => h x (List.mem_cons_of_mem c hx))]
      rfl

/-- Counterexample to C3 as stated: `"ɐ"` (U+0250, two UTF-8 bytes)
classifies as `Iso2 "Ɐ"`, but its stored text `"Ɐ"` (U+2C6F, three
bytes — the Unicode uppercase mapping grew the byte length) reclassifies
as `Name "Ɐ"`, not `Iso2 "Ɐ"`. -/
theorem country_idempotence_counterexample :
    Country.from_string "ɐ" = Country.Iso2 "Ɐ" ∧
    Country.from_string "Ɐ" = Country.Name "Ɐ" := by
  refine ⟨by decide, by decide⟩

/-- Claim C3 as amended: classifying the text stored in an `Iso3` result
again yields the same variant and text; the same holds for an `Iso2`
result provided its stored (uppercased) text is still two bytes long —
in particular for every ASCII input.  (Without that proviso the claim
fails: the Unicode uppercase mapping can change the byte length, as in
"ɐ" → "Ɐ".) -/
theorem country_classification_idempotent (s t : String) :
    (Country.from_string s = Country.Iso2 t → rustLen t = 2 →
      Country.from_string t = Country.Iso2 t) ∧
    (Country.from_string s = Country.Iso3 t →
      Country.from_string t = Country.Iso3 t) := by
  constructor
  · intro h hlent
    unfold Country.from_string at h
    split at h
    · injection h with h2
      have hlen2 : rustLen (rustToUpper s) = 2 := by
        rw [h2]
        exact hlent
      simp only [Country.from_string, hlent]
      rw [← h2, rustToUpper_idem_of_len_two s hlen2]
    · split at h <;> exact Country.noConfusion h
    · exact Country.noConfusion h
  · intro h
    unfold Country.from_string at h
    split at h
    · exact Country.noConfusion h
    · rename_i hlen
      split at h
      · injection h with h2
        rename_i hall
        have hts : t = s := by
          rw [← h2, rustToUpper_eq_self_of_upper_digit s hall]
        subst hts
        simp only [Country.from_string, hlen]
        rw [if_pos hall, rustToUpper_eq_self_of_upper_digit t hall]
      · exact Country.noConfusion h
    · exact Country.noConfusion h

/-- Witness for C3: reclassifying the outputs for "us" and "USA". -/
theorem country_classification_idempotent_witness :
    Country.from_string "US" = Country.Iso2 "US" ∧
    Country.from_string "USA" = Country.Iso3 "USA" :=
  ⟨(country_classification_idempotent "us" "US").1 (by decide) (by decide),
   (country_classification_idempotent "USA" "USA").2 (by decide)⟩

/-- Trim-emptiness restated on the Bool `isEmpty` used by the code. -/
theorem trimList_isEmpty_iff (l : List Char) :
    (trimList l).isEmpty = true ↔ l.all rustIsWhitespace = true := by
  rw [List.isEmpty_iff]
  exact trimList_eq_nil_iff l

/-- Claim C5: `Postcode::new` returns `None` exactly when the text is
empty or all whitespace, and otherwise stores the text verbatim (no
trimming or normalization), so `as_str` reads back the original. -/
theorem postcode_new_contract (s : String) :
    (Postcode.new s = none ↔ s.data.all rustIsWhitespace = true) ∧
    (∀ p : Postcode, Postcode.new s = some p → p.as_str = s) := by
  constructor
  · unfold Postcode.new
    by_cases h : (trimList s.data).isEmpty = true
    · rw [if_pos h]
      exact ⟨fun _ => (trimList_isEmpty_iff s.data).mp h, fun _ => rfl⟩
    · rw [if_neg h]
      exact ⟨fun hc => Option.noConfusion hc,
        fun ha => absurd ((trimList_isEmpty_iff s.data).mpr ha) h⟩
  · intro p hp
    unfold Postcode.new at hp
    split at hp
    · exact Option.noConfusion hp
    · injection hp with h2
      rw [← h2]
      rfl

/-- Witness for C5: a whitespace-only input and a padded zip code. -/
theorem postcode_new_contract_witness :
    Postcode.new "   " = none ∧
    (Postcode.mk " 11216 ").as_str = " 11216 " :=
  ⟨(postcode_new_contract "   ").1.mpr (by decide),
   (postcode_new_contract " 11216 ").2 ⟨" 11216 "⟩ (by decide)⟩

/-- Claim C9: every `Postcode` produced by the public constructor stores
text whose trimmed view is non-empty, and both `as_str` and the `Display`
rendering return exactly that stored text. -/
theorem postcode_invariant (s : String) (p : Postcode)
    (h : Postcode.new s = some p) :
    trimList p.val.data ≠ [] ∧ p.as_str = p.val ∧ p.display = p.val := by
  refine ⟨?_, rfl, rfl⟩
  unfold Postcode.new at h
  split at h
  · exact Option.noConfusion h
  · injection h with h2
    rename_i hcond
    rw [← h2]
    intro hnil
    exact hcond (by rw [List.isEmpty_iff]; exact hnil)

/-- Witness for C9 at a concrete constructed postcode. -/
theorem postcode_invariant_witness :
    trimList (Postcode.mk "90210").val.data ≠ [] ∧
    (Postcode.mk "90210").as_str = (Postcode.mk "90210").val :=
  ⟨(postcode_invariant "90210" ⟨"90210"⟩ (by decide)).1,
   (postcode_invariant "90210" ⟨"90210"⟩ (by decide)).2.1⟩

/-- Claim C10: empty raw text yields a present-but-empty classified value
for `state` (`Some(Other(""))`) and `country` (`Some(Name(""))`), while
only `postcode` maps empty or whitespace-only raw text to the absent
field. -/
theorem empty_classified_fields :
    (Address.from_parsed [("state", "")]).state = some (State.Other "") ∧
    (Address.from_parsed [("country", "")]).country =
      some (Country.Name "") ∧
    (Address.from_parsed [("postcode", "")]).postcode = none ∧
    (Address.from_parsed [("postcode", "   ")]).postcode = none := by
  refine ⟨by decide, by decide, by decide, by decide⟩

/-- Claim C6: `to_single_line` renders only the seven primary-line fields
(house_number, road, #unit, city, state, postcode, country, in that fixed
order, space-separated, absent fields skipped): the output is determined
by those fields alone, the spec's two concrete examples render exactly as
stated, and a present unit is rendered with a leading `#` between road
and city. As a pure function of an immutable record, it cannot mutate its
argument. -/
theorem to_single_line_contract :
    (∀ a b : Address,
      a.house_number = b.house_number → a.road = b.road → a.unit = b.unit →
      a.city = b.city → a.state = b.state → a.postcode = b.postcode →
      a.country = b.country → a.to_single_line = b.to_single_line) ∧
    Address.to_single_line
        { house_number := some "781", road := some "Franklin Ave",
          city := some "Brooklyn",
          state := some (State.UsStateCode UsStateCode.NY),
          postcode := some ⟨"11216"⟩,
          country := some (Country.Iso3 "USA") } =
      "781 Franklin Ave Brooklyn NY 11216 USA" ∧
    Address.to_single_line
        { city := some "Springfield",
          state := some (State.UsStateCode UsStateCode.IL) } =
      "Springfield IL" ∧
    Address.to_single_line
        { road := some "Main St", unit := some "3B",
          city := some "Springfield" } =
      "Main St #3B Springfield" := by
  refine ⟨?_, by decide, by decide, by decide⟩
  intro a b h1 h2 h3 h4 h5 h6 h7
  unfold Address.to_single_line
  rw [h1, h2, h3, h4, h5, h6, h7]

/-- Witness for C6: an address differing from the default only in a
non-rendered field (suburb) renders identically to the default. -/
theorem to_single_line_contract_witness :
    Address.to_single_line { suburb := some "Crown Heights" } =
      Address.to_single_line Address.default :=
  to_single_line_contract.1 _ _ rfl rfl rfl rfl rfl rfl rfl

/-- Claim C7: `Address::from_parsed` is a total function — every input
mapping (the fold over its entries) produces an `Address`, and the empty
mapping produces the all-absent default. -/
theorem from_parsed_total :
    (∀ parsed : List (String × String),
      ∃ a : Address, Address.from_parsed parsed = a) ∧
    Address.from_parsed [] = Address.default :=
  ⟨fun parsed => ⟨Address.from_parsed parsed, rfl⟩, rfl⟩

/-- An entry whose key is outside the recognized vocabulary leaves the
accumulator unchanged (the dispatch loop's default arm). -/
theorem applyEntry_unrecognized (addr : Address) (k v : String)
    (h : recognizedKeys.contains k = false) :
    Address.applyEntry addr (k, v) = addr := by
  unfold Address.applyEntry
  split <;> first
    | rfl
    | (rename_i heq
       rw [show k = _ from heq] at h
       exact absurd h (by decide))

/-- Filtering out unrecognized keys does not change the fold. -/
theorem foldl_filter_recognized (l : List (String × String)) (addr : Address) :
    (l.filter recognizedEntry).foldl Address.applyEntry addr =
      l.foldl Address.applyEntry addr := by
  induction l generalizing addr with
  | nil => rfl
  | cons kv l ih =>
    obtain ⟨k, v⟩ := kv
    by_cases h : recognizedEntry (k, v) = true
    · rw [List.filter_cons_of_pos h]
      simp only [List.foldl_cons]
      exact ih _
    · have hf : recognizedKeys.contains k = false :=
        Bool.eq_false_iff.mpr h
      rw [List.filter_cons_of_neg h]
      simp only [List.foldl_cons]
      rw [applyEntry_unrecognized addr k v hf]
      exact ih _

/-- Claim C8: entries with unrecognized keys (exact, case-sensitive
match) are silently dropped by `Address::from_parsed` — restricting any
mapping to its recognized keys gives the same `Address`, and a mapping
with only unrecognized keys gives the all-absent default. -/
theorem unknown_keys_ignored (l : List (String × String)) :
    Address.from_parsed (l.filter recognizedEntry) =
      Address.from_parsed l ∧
    ((∀ kv ∈ l, recognizedKeys.contains kv.1 = false) →
      Address.from_parsed l = Address.default) := by
  constructor
  · exact foldl_filter_recognized l Address.default
  · intro h
    have hfil : l.filter recognizedEntry = [] := by
      rw [List.filter_eq_nil_iff]
      intro kv hkv
      simpa [recognizedEntry] using h kv hkv
    have hfold := foldl_filter_recognized l Address.default
    rw [hfil] at hfold
    exact hfold.symm

/-- Witness for C8: a mapping whose keys are all unrecognized — one
differing from a recognized key only in case — yields the default. -/
theorem unknown_keys_ignored_witness :
    Address.from_parsed [("State", "NY"), ("zipcode", "11216")] =
      Address.default :=
  (unknown_keys_ignored [("State", "NY"), ("zipcode", "11216")]).2
    (by decide)

end Libpostal
